import Mathlib

/-!
Verification of the PaKeT escrow-delivery API (`routes.py`, `api.py`) against
its natural-language specification.

The HTTP handlers are embedded from `src/routes.py` and `src/api.py`.
The storage module `db` and the nonce store of `webserver.validation` are part
of the repository but are not among the given source files (only their callers
and tests are), so those operations are modelled from the spec, as marked on
each definition.  The external Stellar ledger adapter is out of scope for the
repository; calls into it are modelled by explicit parameters carrying the
adapter's reply.
-/

namespace Paket

/-- An event row of the Event Ledger: `(timestamp, escrow_id?, actor_identity,
event_type, location?)`.  User events carry no escrow id.  Time order is list
order (append-only storage). -/
structure Event where
  timestamp : String
  escrow_pubkey : Option String
  user_pubkey : String
  event_type : String
  location : Option String
deriving DecidableEq

/-- A Package row of the Package Registry, with the fields named by the spec:
escrow id, the three party identities, payment, collateral, deadline and the
optional last known location. -/
structure Package where
  escrow_pubkey : String
  launcher_pubkey : String
  recipient_pubkey : String
  courier_pubkey : String
  payment : Nat
  collateral : Nat
  deadline : Nat
  location : Option String
deriving DecidableEq

/-- Typed failures of the storage and authentication layers. -/
inductive DBError where
  | unknownPaket : DBError
  | duplicatePackage : DBError
  | terminalState : DBError
  | replay : DBError
deriving DecidableEq

/-- The durable store: Package Registry rows, the append-only Event Ledger and
the per-identity Nonce Records `(identity, last_nonce)`. -/
structure DB where
  packages : List Package
  events : List Event
  nonces : List (String × Nat)
deriving DecidableEq

/-- A terminal event type: `received` or `refunded`. -/
def isTerminal (t : String) : Bool :=
  decide (t = "received" ∨ t = "refunded")

/-- The events recorded for one escrow, in append order. -/
def eventsFor (db : DB) (escrow : String) : List Event :=
  db.events.filter (fun e => decide (e.escrow_pubkey = some escrow))

/-- Whether a Package row exists for the escrow. -/
def hasPackage (db : DB) (escrow : String) : Bool :=
  db.packages.any (fun p => decide (p.escrow_pubkey = escrow))

/-- Whether a `launched` event exists for the escrow. -/
def hasLaunched (db : DB) (escrow : String) : Bool :=
  db.events.any (fun e =>
    decide (e.escrow_pubkey = some escrow) && decide (e.event_type = "launched"))

/-- Whether a terminal event exists for the escrow. -/
def hasTerminal (db : DB) (escrow : String) : Bool :=
  db.events.any (fun e =>
    decide (e.escrow_pubkey = some escrow) && isTerminal e.event_type)

/-- Modelled from the spec: `db.get_package(escrow_pubkey)` (the `db` module is
not among the given sources).  Returns the Package row, or fails with the
not-found error `UnknownPaket` when no row exists, as §4.3 requires and as
`GetPackageTest.test_invalid_package` checks. -/
def get_package (db : DB) (escrow : String) : Except DBError Package :=
  match db.packages.find? (fun p => decide (p.escrow_pubkey = escrow)) with
  | some p => Except.ok p
  | none => Except.error DBError.unknownPaket

/-- Modelled from the spec: `db.add_event(escrow_pubkey, user_pubkey,
event_type, location)` (the `db` module is not among the given sources).
Per §4.3 the storage layer enforces the ordering invariants: appending to an
escrow with no prior `launched` event fails with the not-found error, and no
event may be appended after a terminal event. -/
def add_event (db : DB) (now escrow user etype : String) (loc : Option String) :
    Except DBError DB :=
  if hasLaunched db escrow = false then Except.error DBError.unknownPaket
  else if hasTerminal db escrow then Except.error DBError.terminalState
  else Except.ok { db with events := db.events ++ [⟨now, some escrow, user, etype, loc⟩] }

/-- Modelled from the spec: `db.create_package(...)` (the `db` module is not
among the given sources).  Per §4.2 a duplicate create fails with a conflict
error; otherwise the Package row is persisted and a `launched` event attributed
to the launcher is appended, as `CreatePackageTest.test_create_package`
checks. -/
def create_package (db : DB) (now : String) (p : Package) : Except DBError DB :=
  if hasPackage db p.escrow_pubkey then Except.error DBError.duplicatePackage
  else Except.ok { db with
    packages := db.packages ++ [p],
    events := db.events ++
      [⟨now, some p.escrow_pubkey, p.launcher_pubkey, "launched", p.location⟩] }

/-- The escrow terms returned by the external ledger adapter. -/
structure EscrowTerms where
  escrow_pubkey : String
  launcher_pubkey : String
  courier_pubkey : String
  recipient_pubkey : String
  payment_buls : Nat
  collateral_buls : Nat
  deadline_timestamp : Nat
deriving DecidableEq

/-- Model of the external ledger adapter's `paket_stellar.prepare_escrow`:
per §6 it prepares the escrow-funding transactions and hands back the escrow
terms as submitted. -/
def prepare_escrow (escrow launcher courier recipient : String)
    (payment collateral deadline : Nat) : EscrowTerms :=
  ⟨escrow, launcher, courier, recipient, payment, collateral, deadline⟩

/-- `prepare_escrow_handler` of `routes.py`: asks the adapter to prepare the
escrow and persists the resulting package details with the given location. -/
def prepare_escrow_handler (db : DB) (now user_pubkey launcher_pubkey courier_pubkey
    recipient_pubkey : String) (payment_buls collateral_buls deadline_timestamp : Nat)
    (location : Option String) : Except DBError DB :=
  let terms := prepare_escrow user_pubkey launcher_pubkey courier_pubkey
    recipient_pubkey payment_buls collateral_buls deadline_timestamp
  create_package db now
    ⟨terms.escrow_pubkey, terms.launcher_pubkey, terms.recipient_pubkey,
     terms.courier_pubkey, terms.payment_buls, terms.collateral_buls,
     terms.deadline_timestamp, location⟩

/-- `accept_package_handler` of `routes.py`: fetches the package, then appends
a `received` event when the caller is the recorded recipient and a `couriered`
event otherwise. -/
def accept_package_handler (db : DB) (now user_pubkey escrow_pubkey : String)
    (location : Option String) : Except DBError DB := do
  let package ← get_package db escrow_pubkey
  let event_type := if package.recipient_pubkey = user_pubkey then "received" else "couriered"
  add_event db now escrow_pubkey user_pubkey event_type location

/-- `add_event_handler` of `routes.py` (deprecated route): appends an event of
the caller-chosen type. -/
def add_event_handler (db : DB) (now user_pubkey escrow_pubkey event_type : String)
    (location : String) : Except DBError DB :=
  add_event db now escrow_pubkey user_pubkey event_type (some location)

/-- `changed_location_handler` of `routes.py`: appends a location event; the
string literal passed for the event type is `'changed location'`. -/
def changed_location_handler (db : DB) (now user_pubkey escrow_pubkey location : String) :
    Except DBError DB :=
  add_event db now escrow_pubkey user_pubkey "changed location" (some location)

/-- `package_handler` of `routes.py`: returns the full package info. -/
def package_handler (db : DB) (escrow_pubkey : String) : Except DBError Package :=
  get_package db escrow_pubkey

/-- The `last_nonce` recorded for an identity, if a Nonce Record exists. -/
def lookupNonce (nonces : List (String × Nat)) (identity : String) : Option Nat :=
  (nonces.find? (fun r => decide (r.1 = identity))).map (fun r => r.2)

/-- Modelled from the spec: the nonce check of `webserver.validation`
(`update_nonce`; the `webserver` package is not among the given sources).
Per §4.1 steps 4-5: with no Nonce Record any nonce ≥ 0 is accepted and the
record created; otherwise the claimed nonce must be strictly greater than
`last_nonce`, which is then updated atomically, and a stale nonce fails with a
replay error. -/
def check_and_update_nonce (db : DB) (identity : String) (nonce : Nat) :
    Except DBError DB :=
  match lookupNonce db.nonces identity with
  | none => Except.ok { db with nonces := db.nonces ++ [(identity, nonce)] }
  | some last =>
    if last < nonce then
      Except.ok { db with
        nonces := db.nonces.map (fun r => if r.1 = identity then (r.1, nonce) else r) }
    else Except.error DBError.replay

/-- An authenticated mutating call: the Request Authenticator settles the nonce
check first; only then does the route handler run against the store. -/
def authenticated_call (db : DB) (identity : String) (nonce : Nat)
    (handler : DB → Except DBError DB) : Except DBError DB := do
  let db2 ← check_and_update_nonce db identity nonce
  handler db2

/-- The mutating package operations exposed by `routes.py`. -/
inductive Op where
  | prepareEscrow (now user launcher courier recipient : String)
      (payment collateral deadline : Nat) (loc : Option String) : Op
  | acceptPackage (now user escrow : String) (loc : Option String) : Op
  | addEvent (now user escrow etype location : String) : Op
  | changedLocation (now user escrow location : String) : Op

/-- Run one operation against the store; a failed operation commits nothing. -/
def step (db : DB) : Op → DB
  | Op.prepareEscrow now user launcher courier recipient payment collateral deadline loc =>
    match prepare_escrow_handler db now user launcher courier recipient
        payment collateral deadline loc with
    | Except.ok db' => db'
    | Except.error _ => db
  | Op.acceptPackage now user escrow loc =>
    match accept_package_handler db now user escrow loc with
    | Except.ok db' => db'
    | Except.error _ => db
  | Op.addEvent now user escrow etype location =>
    match add_event_handler db now user escrow etype location with
    | Except.ok db' => db'
    | Except.error _ => db
  | Op.changedLocation now user escrow location =>
    match changed_location_handler db now user escrow location with
    | Except.ok db' => db'
    | Except.error _ => db

/-- The empty store. -/
def initDB : DB := ⟨[], [], []⟩

/-- The store reached by a sequence of operations from the empty store. -/
def run (ops : List Op) : DB :=
  ops.foldl step initDB

/-- The reply of one call into the external Stellar adapter. -/
inductive StellarResult where
  | success (tx : String) : StellarResult
  | failure (msg : String) : StellarResult
deriving DecidableEq

/-- The JSON reply of `prepare_account_handler`. -/
structure AccountResponse where
  status : Nat
  transaction : Option String
  error : Option String
deriving DecidableEq

/-- The exception text `stellar_base` raises for an unfunded source account. -/
def unfundedMsg : String := "No sequence is present, maybe not funded?"

/-- `prepare_account_handler` of `routes.py`.  The adapter is modelled as an
oracle of successive replies `res :: rest`; the handler consumes exactly the
first one.  A success becomes a 200 reply with the transaction; the known
unfunded-account exception becomes a 400 reply naming the source account; any
other exception is re-raised (`Except.error`). -/
def prepare_account_handler (from_pubkey new_pubkey : String) (starting_balance : Nat)
    (res : StellarResult) (rest : List StellarResult) :
    Except String AccountResponse × List StellarResult :=
  match res with
  | StellarResult.success tx => (Except.ok ⟨200, some tx, none⟩, rest)
  | StellarResult.failure msg =>
    if msg = unfundedMsg then
      (Except.ok ⟨400, none, some (from_pubkey ++ " is not a funded account")⟩, rest)
    else (Except.error msg, rest)

/-- A user row: pubkey, call sign, and the secret seed when the server itself
generated the keypair (debug registration only). -/
structure User where
  pubkey : String
  call_sign : String
  seed : Option String
deriving DecidableEq

/-- The user table. -/
structure UserDB where
  users : List User
deriving DecidableEq

/-- Failure of `register_user_handler`: the `InvalidField` raised for a bad
pubkey outside debug mode. -/
inductive RegisterError where
  | invalidField (msg : String) : RegisterError
deriving DecidableEq

/-- `register_user_handler` of `api.py`.  Whether `stellar_base` can decode the
supplied pubkey is the external check `pubkey_valid`; `gen_pubkey`/`gen_seed`
are the keypair `paket.get_keypair()` would generate.  A valid pubkey is
registered as supplied (no seed stored); an invalid one raises `InvalidField`
unless debug mode is on, in which case the generated pubkey is registered with
its seed stored.  The registered pubkey is returned alongside the table. -/
def register_user_handler (debug pubkey_valid : Bool) (gen_pubkey gen_seed : String)
    (user_pubkey paket_user : String) (db : UserDB) :
    Except RegisterError (UserDB × String) :=
  if pubkey_valid then
    Except.ok (⟨db.users ++ [⟨user_pubkey, paket_user, none⟩]⟩, user_pubkey)
  else if debug = false then
    Except.error (RegisterError.invalidField ("invalid pubkey " ++ user_pubkey))
  else
    Except.ok (⟨db.users ++ [⟨gen_pubkey, paket_user, some gen_seed⟩]⟩, gen_pubkey)

/-- The events listing returned by `db.get_events`: package events and user
events. -/
structure EventsResult where
  packages_events : List Event
  user_events : List Event
deriving DecidableEq

/-- Modelled from the spec: `db.get_events(limit)` (the `db` module is not
among the given sources): per §4.3 `list_events`, the stored package events
(rows with an escrow id) and user events (rows without), up to `limit`. -/
def get_events (db : DB) (limit : Nat) : EventsResult :=
  ⟨(db.events.filter (fun e => e.escrow_pubkey.isSome)).take limit,
   (db.events.filter (fun e => e.escrow_pubkey.isNone)).take limit⟩

/-- The hard-coded mock events of `events_handler` in `routes.py`
(lines 285-349), transcribed verbatim. -/
def mockEvents : EventsResult :=
  ⟨[⟨"2018-08-03 14:29:18.116482",
     some "GB5SUIN2OEJXG2GDYG6EGB544DQLUVZX35SJJVLHWCEZ4FYWRWW236FB",
     "GBUPZ63WK2ZLOCXPCUOMM7XRUGXOVJC3RIBL7KBTUSHLKFRKVHUB757L",
     "launched", some "51.4983407,-0.173709"⟩,
    ⟨"2018-08-03 14:35:05.958315",
     some "GB5SUIN2OEJXG2GDYG6EGB544DQLUVZX35SJJVLHWCEZ4FYWRWW236FB",
     "GCBKJ3QLHCBK5WBF4UZ5K2LOVDI63WG2SKLIWIMREPRLCTIHD6B5QR65",
     "couriered", some "51.4983407,-0.173709"⟩,
    ⟨"2018-08-04 17:02:55.138572",
     some "GB5SUIN2OEJXG2GDYG6EGB544DQLUVZX35SJJVLHWCEZ4FYWRWW236FB",
     "GDRGF2BU7CV4QU4E54B72BJEL4CWFMTTVSVJMKWESK32HLTYD4ZEWJOR",
     "received", some "53.3979468,-2.932953"⟩,
    ⟨"2018-08-03 06:35:17.169421",
     some "GBMU5SWBUNBCDRUMIZNCDOTMIRGLBFY5DEPIE4OTBAUOFK4V3HOENAGT",
     "GANEU37FIEBICW6352CVIUD7GYOV5H7W5YUE5ECDH5PJNF7R5ISYJR3K",
     "launched", some "31.2373787,34.7889161"⟩,
    ⟨"2018-08-03 07:01:17.192375",
     some "GBMU5SWBUNBCDRUMIZNCDOTMIRGLBFY5DEPIE4OTBAUOFK4V3HOENAGT",
     "GBL4FZ6HCA6SQATD5UYHQYMVWASBEZCKGL2P7PEU6VNLONVFZY6DPV3R",
     "couriered", some "31.2373787,34.7889161"⟩,
    ⟨"2018-08-05 22:05:53.162485",
     some "GBMU5SWBUNBCDRUMIZNCDOTMIRGLBFY5DEPIE4OTBAUOFK4V3HOENAGT",
     "GBYYI24HZ75OYBAHZOUVAAQNS5YHMN32VLCDBZFXHAAJKRRSCZICBIDJ",
     "received", some "32.8266712,34.9774087"⟩,
    ⟨"2018-08-07 05:55:15.168276",
     some "GALIFYZ6GDHXWDH2QZLRJY2XS77A6WXILDFSRH6ZZM3IYOIH2XEK3TAK",
     "GAZ2UUQUEYY2LHAQMP4M737DXXX3TM7L6BE5JT7LYWS5GYL6VXQ6HASR",
     "launched", some "12.926039,77.5056131"⟩,
    ⟨"2018-08-07 09:14:18.137124",
     some "GALIFYZ6GDHXWDH2QZLRJY2XS77A6WXILDFSRH6ZZM3IYOIH2XEK3TAK",
     "GBQR3QGZOS2K4MQPPJDKRMJ6MIEACCG4BRO23UE33TDFRZOM57VL5O5J",
     "couriered", some "12.926039,77.5056131"⟩,
    ⟨"2018-08-09 14:27:16.143762",
     some "GALIFYZ6GDHXWDH2QZLRJY2XS77A6WXILDFSRH6ZZM3IYOIH2XEK3TAK",
     "GAYOZB7SZBD7O4UPLLQNXFN5ZZCQJSXBKERNIY4MIWL7DVXF7DBF7OU6",
     "received", some "28.7050581,77.1419526"⟩],
   [⟨"2018-08-01 17:46:18.169723", none,
     "GBUPZ63WK2ZLOCXPCUOMM7XRUGXOVJC3RIBL7KBTUSHLKFRKVHUB757L",
     "installed app", some "51.5482912,-0.3048464"⟩,
    ⟨"2018-07-22 19:36:18.123142", none,
     "GCCYNSN3WETV2FBASFVXKAJ54OX4NUTP4ZUJFGXTX47A2GRQYQ52QQBK",
     "installed app", some "50.2443519,28.6989147"⟩,
    ⟨"2018-07-22 19:58:38.164237", none,
     "GCCYNSN3WETV2FBASFVXKAJ54OX4NUTP4ZUJFGXTX47A2GRQYQ52QQBK",
     "passed kyc", some "50.2443519,28.6989147"⟩,
    ⟨"2018-07-28 05:34:21.134562", none,
     "GBOTDKM6ZJNV54QLXKTU5WSYFXJZDZZSGKTYHDNWDDVAEVB73DPLSP4H",
     "funded account", some "22.9272893,113.3443182"⟩,
    ⟨"2018-07-30 22:12:21.136421", none,
     "GAUHIJXEV2D46G375FJNCUBGVUKXRF7C3VC7U3HUPCBIZUYHJKP4N6XA",
     "funded account", some "-16.2658233,-47.9159335"⟩,
    ⟨"2018-08-03 17:35:14.136415", none,
     "GAL54ATIHYBWMKYUNQSM3QAGZGCUBJGF6KEFFSQTEV7JOOA72UEJP4UL",
     "funded account", some "51.0465554,-114.0752757"⟩]⟩

/-- `events_handler` of `routes.py`: fetches the stored events; when both
lists are empty and `allow_mock` is set, the hard-coded mock events are
returned instead. -/
def events_handler (db : DB) (limit : Nat) (allow_mock : Bool) : EventsResult :=
  let events := get_events db limit
  if (events.packages_events.isEmpty && events.user_events.isEmpty) && allow_mock then
    mockEvents
  else events

/-- Number of events recorded after the first terminal event of a list;
`0` when no terminal event exists. -/
def eventsAfterTerminal : List Event → Nat
  | [] => 0
  | e :: rest => if isTerminal e.event_type then rest.length else eventsAfterTerminal rest

/-- Whether the head of an escrow's event list, if any, is a `launched` event
attributed to the launcher of an existing Package row. -/
def firstOk (db : DB) (escrow : String) : List Event → Bool
  | [] => true
  | e :: _ =>
    decide (e.event_type = "launched") &&
    (match db.packages.find? (fun p => decide (p.escrow_pubkey = escrow)) with
     | some p => decide (e.user_pubkey = p.launcher_pubkey)
     | none => false)

/-- Per-escrow storage invariant: the first event, if any, is `launched` and
attributed to the row's launcher, and no event follows a terminal event. -/
def escrowInv (db : DB) (escrow : String) : Bool :=
  firstOk db escrow (eventsFor db escrow) &&
  decide (eventsAfterTerminal (eventsFor db escrow) = 0)

/-- The storage invariant, for every escrow. -/
def Inv (db : DB) : Prop :=
  ∀ escrow : String, escrowInv db escrow = true

/-- The store committed by an authenticated call; a failed call (replay error
included) commits nothing. -/
def commitAuth (db : DB) (identity : String) (nonce : Nat)
    (handler : DB → Except DBError DB) : DB :=
  match authenticated_call db identity nonce handler with
  | Except.ok db' => db'
  | Except.error _ => db

/-- A store holding one launched, non-terminal package with recipient `R` and
courier `C`. -/
def dbC1 : DB :=
  ⟨[⟨"E", "L", "R", "C", 5, 10, 100, none⟩],
   [⟨"t0", some "E", "L", "launched", none⟩], []⟩

/-- A second store holding one launched, non-terminal package. -/
def dbC6 : DB :=
  ⟨[⟨"F", "L", "R", "C", 5, 10, 100, none⟩],
   [⟨"t0", some "F", "L", "launched", none⟩], []⟩

/-! ## Supporting lemmas -/

theorem find?_append_some {α : Type} {l₁ : List α} (l₂ : List α) {f : α → Bool} {x : α}
    (h : l₁.find? f = some x) : (l₁ ++ l₂).find? f = some x := by
  rw [List.find?_append, h]
  rfl

theorem find?_append_none {α : Type} {l₁ : List α} (l₂ : List α) {f : α → Bool}
    (h : l₁.find? f = none) : (l₁ ++ l₂).find? f = l₂.find? f := by
  rw [List.find?_append, h]
  rcases l₂.find? f with _ | x <;> rfl

theorem find?_eq_none_of_any_false {α : Type} {l : List α} {f : α → Bool}
    (h : l.any f = false) : l.find? f = none := by
  rw [List.find?_eq_none]
  intro x hx hfx
  have : l.any f = true := List.any_eq_true.mpr ⟨x, hx, hfx⟩
  rw [this] at h
  exact Bool.noConfusion h

theorem eventsFor_append (db : DB) (ev : Event) (escrow : String) :
    eventsFor { db with events := db.events ++ [ev] } escrow =
      eventsFor db escrow ++ (if ev.escrow_pubkey = some escrow then [ev] else []) := by
  simp only [eventsFor, List.filter_append]
  congr 1
  by_cases h : ev.escrow_pubkey = some escrow <;> simp [List.filter, h]

theorem no_terminal_of_hasTerminal_false {db : DB} {escrow : String}
    (h : hasTerminal db escrow = false) :
    ∀ e ∈ eventsFor db escrow, isTerminal e.event_type = false := by
  intro e he
  rw [eventsFor, List.mem_filter] at he
  by_cases ht : isTerminal e.event_type
  · exfalso
    have : hasTerminal db escrow = true := by
      rw [hasTerminal]
      exact List.any_eq_true.mpr ⟨e, he.1, by rw [Bool.and_eq_true]; exact ⟨he.2, ht⟩⟩
    rw [this] at h
    exact Bool.noConfusion h
  · exact Bool.not_eq_true _ ▸ Bool.of_not_eq_true ht

theorem eventsAfterTerminal_append {l : List Event} (x : Event)
    (h : ∀ e ∈ l, isTerminal e.event_type = false) :
    eventsAfterTerminal (l ++ [x]) = 0 := by
  induction l with
  | nil =>
    simp only [List.nil_append, eventsAfterTerminal]
    split
    · rfl
    · rfl
  | cons e t ih =>
    have he : isTerminal e.event_type = false := h e (List.mem_cons_self e t)
    simp only [List.cons_append, eventsAfterTerminal, he, Bool.false_eq_true, if_false]
    exact ih (fun e' he' => h e' (List.mem_cons_of_mem e he'))

theorem eventsFor_ne_nil_of_hasLaunched {db : DB} {escrow : String}
    (h : hasLaunched db escrow = true) : eventsFor db escrow ≠ [] := by
  rw [hasLaunched, List.any_eq_true] at h
  obtain ⟨e, he, hp⟩ := h
  rw [Bool.and_eq_true, decide_eq_true_eq, decide_eq_true_eq] at hp
  intro hnil
  have : e ∈ eventsFor db escrow := by
    rw [eventsFor, List.mem_filter]
    exact ⟨he, decide_eq_true hp.1⟩
  rw [hnil] at this
  exact List.not_mem_nil e this

theorem eventsFor_ne_nil_of_hasTerminal {db : DB} {escrow : String}
    (h : hasTerminal db escrow = true) : eventsFor db escrow ≠ [] := by
  rw [hasTerminal, List.any_eq_true] at h
  obtain ⟨e, he, hp⟩ := h
  rw [Bool.and_eq_true, decide_eq_true_eq] at hp
  intro hnil
  have : e ∈ eventsFor db escrow := by
    rw [eventsFor, List.mem_filter]
    exact ⟨he, decide_eq_true hp.1⟩
  rw [hnil] at this
  exact List.not_mem_nil e this

theorem hasLaunched_of_head {db : DB} {escrow : String} {e : Event} {t : List Event}
    (h : eventsFor db escrow = e :: t) (hl : e.event_type = "launched") :
    hasLaunched db escrow = true := by
  have he : e ∈ eventsFor db escrow := by rw [h]; exact List.mem_cons_self e t
  rw [eventsFor, List.mem_filter, decide_eq_true_eq] at he
  rw [hasLaunched, List.any_eq_true]
  refine ⟨e, he.1, ?_⟩
  rw [Bool.and_eq_true, decide_eq_true_eq, decide_eq_true_eq]
  exact ⟨he.2, hl⟩

theorem firstOk_congr {db db' : DB} {escrow : String}
    (hf : db'.packages.find? (fun p => decide (p.escrow_pubkey = escrow)) =
          db.packages.find? (fun p => decide (p.escrow_pubkey = escrow)))
    (l : List Event) : firstOk db' escrow l = firstOk db escrow l := by
  cases l with
  | nil => rfl
  | cons e t =>
    unfold firstOk
    rw [hf]

theorem escrowInv_spec {db : DB} {escrow : String} (h : escrowInv db escrow = true) :
    firstOk db escrow (eventsFor db escrow) = true ∧
    eventsAfterTerminal (eventsFor db escrow) = 0 := by
  rw [escrowInv, Bool.and_eq_true, decide_eq_true_eq] at h
  exact h

theorem firstOk_cons {db : DB} {escrow : String} {e : Event} {t : List Event}
    (h : firstOk db escrow (e :: t) = true) :
    e.event_type = "launched" ∧
    ∃ p, db.packages.find? (fun p => decide (p.escrow_pubkey = escrow)) = some p ∧
      e.user_pubkey = p.launcher_pubkey := by
  unfold firstOk at h
  rw [Bool.and_eq_true, decide_eq_true_eq] at h
  refine ⟨h.1, ?_⟩
  rcases hf : db.packages.find? (fun p => decide (p.escrow_pubkey = escrow)) with _ | p
  · rw [hf] at h
    exact absurd h.2 (by simp)
  · rw [hf] at h
    exact ⟨p, hf, decide_eq_true_eq.mp h.2⟩

theorem add_event_inv {db db' : DB} {now escrow user etype : String} {loc : Option String}
    (hInv : Inv db) (h : add_event db now escrow user etype loc = Except.ok db') :
    Inv db' := by
  rw [add_event] at h
  by_cases h1 : hasLaunched db escrow = false
  · rw [if_pos h1] at h
    exact Except.noConfusion h
  rw [if_neg h1] at h
  by_cases h2 : hasTerminal db escrow = true
  · rw [if_pos h2] at h
    exact Except.noConfusion h
  rw [if_neg h2] at h
  rw [Bool.not_eq_false] at h1
  rw [Bool.not_eq_true] at h2
  have hdb' : db' = { db with events :=
      db.events ++ [⟨now, some escrow, user, etype, loc⟩] } :=
    (Except.ok.injEq _ _ ▸ h).symm
  subst hdb'
  intro escrow'
  have hp : ({ db with events := db.events ++ [⟨now, some escrow, user, etype, loc⟩] } :
      DB).packages = db.packages := rfl
  by_cases heq : escrow = escrow'
  · subst heq
    have hev : eventsFor { db with events :=
        db.events ++ [⟨now, some escrow, user, etype, loc⟩] } escrow =
        eventsFor db escrow ++ [⟨now, some escrow, user, etype, loc⟩] := by
      rw [eventsFor_append]
      simp
    obtain ⟨e, t, het⟩ : ∃ e t, eventsFor db escrow = e :: t := by
      rcases hcase : eventsFor db escrow with _ | ⟨e, t⟩
      · exact absurd hcase (eventsFor_ne_nil_of_hasLaunched h1)
      · exact ⟨e, t, rfl⟩
    rw [escrowInv, Bool.and_eq_true, decide_eq_true_eq]
    constructor
    · rw [hev, het, List.cons_append]
      have hfo := (escrowInv_spec (hInv escrow)).1
      rw [het] at hfo
      unfold firstOk at hfo ⊢
      rw [hp]
      exact hfo
    · rw [hev]
      exact eventsAfterTerminal_append _ (no_terminal_of_hasTerminal_false h2)
  · have hev : eventsFor { db with events :=
        db.events ++ [⟨now, some escrow, user, etype, loc⟩] } escrow' =
        eventsFor db escrow' := by
      rw [eventsFor_append]
      rw [if_neg (by simp [heq]), List.append_nil]
    rw [escrowInv, hev, firstOk_congr (by rw [hp])]
    have hh := hInv escrow'
    rw [escrowInv] at hh
    exact hh

theorem eventsFor_create (db : DB) (p : Package) (ev : Event) (escrow : String) :
    eventsFor { db with packages := db.packages ++ [p], events := db.events ++ [ev] }
        escrow =
      eventsFor db escrow ++ (if ev.escrow_pubkey = some escrow then [ev] else []) := by
  simp only [eventsFor, List.filter_append]
  congr 1
  by_cases h : ev.escrow_pubkey = some escrow <;> simp [List.filter, h]

theorem create_package_inv {db db' : DB} {now : String} {p : Package}
    (hInv : Inv db) (h : create_package db now p = Except.ok db') : Inv db' := by
  rw [create_package] at h
  by_cases hp : hasPackage db p.escrow_pubkey = true
  · rw [if_pos hp] at h
    exact Except.noConfusion h
  rw [if_neg hp] at h
  rw [Bool.not_eq_true] at hp
  have hfnone : db.packages.find? (fun q => decide (q.escrow_pubkey = p.escrow_pubkey)) =
      none := find?_eq_none_of_any_false hp
  have hdb' : db' = { db with
      packages := db.packages ++ [p],
      events := db.events ++
        [⟨now, some p.escrow_pubkey, p.launcher_pubkey, "launched", p.location⟩] } :=
    (Except.ok.injEq _ _ ▸ h).symm
  subst hdb'
  intro escrow'
  by_cases heq : p.escrow_pubkey = escrow'
  · subst heq
    have hnil : eventsFor db p.escrow_pubkey = [] := by
      rcases hcase : eventsFor db p.escrow_pubkey with _ | ⟨e, t⟩
      · rfl
      · have hfo := (escrowInv_spec (hInv p.escrow_pubkey)).1
        rw [hcase] at hfo
        obtain ⟨_, q, hfq, _⟩ := firstOk_cons hfo
        rw [hfnone] at hfq
        exact Option.noConfusion hfq
    have hev : eventsFor { db with
        packages := db.packages ++ [p],
        events := db.events ++
          [⟨now, some p.escrow_pubkey, p.launcher_pubkey, "launched", p.location⟩] }
        p.escrow_pubkey =
        [⟨now, some p.escrow_pubkey, p.launcher_pubkey, "launched", p.location⟩] := by
      rw [eventsFor_create, hnil, List.nil_append, if_pos rfl]
    have hfp : ({ db with
        packages := db.packages ++ [p],
        events := db.events ++
          [⟨now, some p.escrow_pubkey, p.launcher_pubkey, "launched", p.location⟩] } :
        DB).packages.find? (fun q => decide (q.escrow_pubkey = p.escrow_pubkey)) =
        some p := by
      show (db.packages ++ [p]).find? _ = some p
      rw [find?_append_none _ hfnone]
      exact List.find?_cons_of_pos _ (decide_eq_true rfl)
    rw [escrowInv, Bool.and_eq_true, decide_eq_true_eq, hev]
    constructor
    · unfold firstOk
      rw [hfp]
      simp
    · simp [eventsAfterTerminal]
  · have hev : eventsFor { db with
        packages := db.packages ++ [p],
        events := db.events ++
          [⟨now, some p.escrow_pubkey, p.launcher_pubkey, "launched", p.location⟩] }
        escrow' = eventsFor db escrow' := by
      rw [eventsFor_create, if_neg (by simp [heq]), List.append_nil]
    have hfp : ({ db with
        packages := db.packages ++ [p],
        events := db.events ++
          [⟨now, some p.escrow_pubkey, p.launcher_pubkey, "launched", p.location⟩] } :
        DB).packages.find? (fun q => decide (q.escrow_pubkey = escrow')) =
        db.packages.find? (fun q => decide (q.escrow_pubkey = escrow')) := by
      show (db.packages ++ [p]).find? _ = _
      rcases hf : db.packages.find? (fun q => decide (q.escrow_pubkey = escrow')) with _ | q
      · rw [find?_append_none _ hf]
        rw [List.find?_cons_of_neg _ (by simp [heq]), List.find?_nil]
        exact hf.symm
      · rw [find?_append_some _ hf, hf]
    rw [escrowInv, hev, firstOk_congr hfp]
    have hh := hInv escrow'
    rw [escrowInv] at hh
    exact hh

theorem accept_ok_add_event {db db' : DB} {now user escrow : String} {loc : Option String}
    (h : accept_package_handler db now user escrow loc = Except.ok db') :
    ∃ etype, add_event db now escrow user etype loc = Except.ok db' := by
  rw [accept_package_handler] at h
  rcases hg : get_package db escrow with e | pkg
  · rw [hg] at h
    exact Except.noConfusion h
  · rw [hg] at h
    exact ⟨_, h⟩

theorem step_inv (db : DB) (op : Op) (hInv : Inv db) : Inv (step db op) := by
  cases op with
  | prepareEscrow now user launcher courier recipient payment collateral deadline loc =>
    rw [step]
    rcases h : prepare_escrow_handler db now user launcher courier recipient
        payment collateral deadline loc with e | db'
    · exact hInv
    · rw [prepare_escrow_handler] at h
      exact create_package_inv hInv h
  | acceptPackage now user escrow loc =>
    rw [step]
    rcases h : accept_package_handler db now user escrow loc with e | db'
    · exact hInv
    · obtain ⟨etype, ha⟩ := accept_ok_add_event h
      exact add_event_inv hInv ha
  | addEvent now user escrow etype location =>
    rw [step]
    rcases h : add_event_handler db now user escrow etype location with e | db'
    · exact hInv
    · rw [add_event_handler] at h
      exact add_event_inv hInv h
  | changedLocation now user escrow location =>
    rw [step]
    rcases h : changed_location_handler db now user escrow location with e | db'
    · exact hInv
    · rw [changed_location_handler] at h
      exact add_event_inv hInv h

theorem initDB_inv : Inv initDB := by
  intro escrow
  rfl

theorem foldl_inv (ops : List Op) (db : DB) (hInv : Inv db) :
    Inv (ops.foldl step db) := by
  induction ops generalizing db with
  | nil => exact hInv
  | cons op rest ih => exact ih _ (step_inv db op hInv)

theorem run_inv (ops : List Op) : Inv (run ops) :=
  foldl_inv ops initDB initDB_inv

theorem add_event_terminal {db : DB} {escrow : String}
    (hl : hasLaunched db escrow = true) (ht : hasTerminal db escrow = true) :
    ∀ (now user etype : String) (loc : Option String),
      add_event db now escrow user etype loc = Except.error DBError.terminalState := by
  intro now user etype loc
  rw [add_event, if_neg (by rw [hl]; exact fun hc => Bool.noConfusion hc), if_pos ht]

theorem launched_of_terminal {db : DB} {escrow : String} (hInv : Inv db)
    (ht : hasTerminal db escrow = true) :
    hasLaunched db escrow = true ∧
    ∃ p, db.packages.find? (fun q => decide (q.escrow_pubkey = escrow)) = some p := by
  obtain ⟨e, t, het⟩ : ∃ e t, eventsFor db escrow = e :: t := by
    rcases hcase : eventsFor db escrow with _ | ⟨e, t⟩
    · exact absurd hcase (eventsFor_ne_nil_of_hasTerminal ht)
    · exact ⟨e, t, rfl⟩
  have hfo := (escrowInv_spec (hInv escrow)).1
  rw [het] at hfo
  obtain ⟨hle, p, hfp, _⟩ := firstOk_cons hfo
  exact ⟨hasLaunched_of_head het hle, p, hfp⟩

/-! ## Claim theorems -/

/-- Claim C7: for every escrow id without a Package row, `get_package` (and the
package query built on it) fails with the not-found error rather than returning
a value, and for every escrow id with a Package row it returns that row. -/
theorem claim_C7 (db : DB) (escrow : String) (p : Package) :
    (hasPackage db escrow = false →
      get_package db escrow = Except.error DBError.unknownPaket ∧
      package_handler db escrow = Except.error DBError.unknownPaket) ∧
    (db.packages.find? (fun q => decide (q.escrow_pubkey = escrow)) = some p →
      get_package db escrow = Except.ok p ∧ package_handler db escrow = Except.ok p) := by
  constructor
  · intro h
    rw [hasPackage] at h
    have hf := find?_eq_none_of_any_false h
    rw [package_handler, get_package, hf]
    exact ⟨rfl, rfl⟩
  · intro h
    rw [package_handler, get_package, h]
    exact ⟨rfl, rfl⟩

/-- Witness for C7 at concrete stores: the empty store knows no escrow `Z`;
`dbC1` returns its single row. -/
theorem claim_C7_witness :
    (get_package initDB "Z" = Except.error DBError.unknownPaket ∧
     package_handler initDB "Z" = Except.error DBError.unknownPaket) ∧
    (get_package dbC1 "E" = Except.ok ⟨"E", "L", "R", "C", 5, 10, 100, none⟩ ∧
     package_handler dbC1 "E" = Except.ok ⟨"E", "L", "R", "C", 5, 10, 100, none⟩) :=
  ⟨(claim_C7 initDB "Z" ⟨"E", "L", "R", "C", 5, 10, 100, none⟩).1 (by decide),
   (claim_C7 dbC1 "E" ⟨"E", "L", "R", "C", 5, 10, 100, none⟩).2 (by decide)⟩

/-- Claim C4: a successful launch (`prepare_escrow_handler`, which persists via
`create_package`) followed by `get_package` on the same escrow id returns a
package whose launcher/recipient/courier/payment/collateral/deadline fields
equal the values submitted at launch. -/
theorem claim_C4 (db db' : DB) (now user_pubkey launcher_pubkey courier_pubkey
    recipient_pubkey : String) (payment_buls collateral_buls deadline_timestamp : Nat)
    (loc : Option String)
    (h : prepare_escrow_handler db now user_pubkey launcher_pubkey courier_pubkey
      recipient_pubkey payment_buls collateral_buls deadline_timestamp loc =
      Except.ok db') :
    package_handler db' user_pubkey =
      Except.ok (⟨user_pubkey, launcher_pubkey, recipient_pubkey, courier_pubkey,
        payment_buls, collateral_buls, deadline_timestamp, loc⟩ : Package) := by
  rw [prepare_escrow_handler, prepare_escrow, create_package] at h
  by_cases hp : hasPackage db user_pubkey = true
  · rw [if_pos hp] at h
    exact Except.noConfusion h
  rw [if_neg hp] at h
  rw [Bool.not_eq_true] at hp
  rw [hasPackage] at hp
  have hfnone := find?_eq_none_of_any_false hp
  have hdb' : db' = { db with
      packages := db.packages ++
        [⟨user_pubkey, launcher_pubkey, recipient_pubkey, courier_pubkey,
          payment_buls, collateral_buls, deadline_timestamp, loc⟩],
      events := db.events ++
        [⟨now, some user_pubkey, launcher_pubkey, "launched", loc⟩] } :=
    (Except.ok.injEq _ _ ▸ h).symm
  subst hdb'
  rw [package_handler, get_package]
  rw [show ({ db with
      packages := db.packages ++
        [⟨user_pubkey, launcher_pubkey, recipient_pubkey, courier_pubkey,
          payment_buls, collateral_buls, deadline_timestamp, loc⟩],
      events := db.events ++
        [⟨now, some user_pubkey, launcher_pubkey, "launched", loc⟩] } : DB).packages =
      db.packages ++
        [⟨user_pubkey, launcher_pubkey, recipient_pubkey, courier_pubkey,
          payment_buls, collateral_buls, deadline_timestamp, loc⟩] from rfl]
  rw [find?_append_none _ hfnone]
  simp [List.find?]

/-- Witness for C4: launching escrow `E` with launcher `L`, courier `C`,
recipient `R`, payment 5, collateral 10, deadline 100 into the empty store and
querying `E` returns exactly those values. -/
theorem claim_C4_witness :
    package_handler ⟨[⟨"E", "L", "R", "C", 5, 10, 100, none⟩],
      [⟨"t0", some "E", "L", "launched", none⟩], []⟩ "E" =
      Except.ok (⟨"E", "L", "R", "C", 5, 10, 100, none⟩ : Package) :=
  claim_C4 initDB ⟨[⟨"E", "L", "R", "C", 5, 10, 100, none⟩],
    [⟨"t0", some "E", "L", "launched", none⟩], []⟩
    "t0" "E" "L" "C" "R" 5 10 100 none rfl

/-- Claim C8: a ledger-adapter failure during `prepare_account_handler` is
surfaced to the caller (the known unfunded-source exception becomes a typed
400 reply naming the failing account; any other exception propagates), and the
handler consumes exactly one adapter reply — it never retries by itself. -/
theorem claim_C8 (from_pubkey new_pubkey : String) (starting_balance : Nat)
    (res : StellarResult) (rest : List StellarResult) (msg tx : String) :
    (prepare_account_handler from_pubkey new_pubkey starting_balance res rest).2 = rest ∧
    (res = StellarResult.failure unfundedMsg →
      (prepare_account_handler from_pubkey new_pubkey starting_balance res rest).1 =
        Except.ok ⟨400, none, some (from_pubkey ++ " is not a funded account")⟩) ∧
    (res = StellarResult.failure msg → msg ≠ unfundedMsg →
      (prepare_account_handler from_pubkey new_pubkey starting_balance res rest).1 =
        Except.error msg) ∧
    (res = StellarResult.success tx →
      (prepare_account_handler from_pubkey new_pubkey starting_balance res rest).1 =
        Except.ok ⟨200, some tx, none⟩) := by
  refine ⟨?_, ?_, ?_, ?_⟩
  · cases res with
    | success tx' => rfl
    | failure m =>
      by_cases hm : m = unfundedMsg <;> simp [prepare_account_handler, hm]
  · intro h
    subst h
    simp [prepare_account_handler]
  · intro h hne
    subst h
    simp [prepare_account_handler, hne]
  · intro h
    subst h
    rfl

/-- Witness for C8: the unfunded-source failure for account `FROM` yields a
400 reply whose error text names `FROM`, with the adapter consulted once. -/
theorem claim_C8_witness :
    (prepare_account_handler "FROM" "NEW" 50000000
      (StellarResult.failure unfundedMsg) []).2 = [] ∧
    (prepare_account_handler "FROM" "NEW" 50000000
      (StellarResult.failure unfundedMsg) []).1 =
      Except.ok ⟨400, none, some ("FROM" ++ " is not a funded account")⟩ :=
  ⟨(claim_C8 "FROM" "NEW" 50000000 (StellarResult.failure unfundedMsg) [] "m" "tx").1,
   (claim_C8 "FROM" "NEW" 50000000 (StellarResult.failure unfundedMsg) [] "m" "tx").2.1 rfl⟩

/-- Claim C9: when the store holds no package events and no user events,
`events_handler` with `allow_mock` set returns the fixed, hard-coded non-empty
list of fabricated events — none of which was ever appended to the Event
Ledger — and with `allow_mock` unset it returns the (empty) stored events. -/
theorem claim_C9 (db : DB) (limit : Nat) (h : db.events = []) :
    events_handler db limit true = mockEvents ∧
    mockEvents.packages_events ≠ [] ∧
    mockEvents.user_events ≠ [] ∧
    (∀ e ∈ mockEvents.packages_events, e ∉ db.events) ∧
    (∀ e ∈ mockEvents.user_events, e ∉ db.events) ∧
    events_handler db limit false = ⟨[], []⟩ := by
  have h1 : get_events db limit = ⟨[], []⟩ := by
    simp [get_events, h]
  refine ⟨?_, ?_, ?_, ?_, ?_, ?_⟩
  · simp [events_handler, h1]
  · intro hc
    exact absurd (congrArg List.length hc) (by decide)
  · intro hc
    exact absurd (congrArg List.length hc) (by decide)
  · intro e _
    rw [h]
    exact List.not_mem_nil e
  · intro e _
    rw [h]
    exact List.not_mem_nil e
  · simp [events_handler, h1]

/-- Witness for C9 at the empty store with the default limit of 100. -/
theorem claim_C9_witness :
    events_handler initDB 100 true = mockEvents ∧
    events_handler initDB 100 false = ⟨[], []⟩ :=
  ⟨(claim_C9 initDB 100 rfl).1, (claim_C9 initDB 100 rfl).2.2.2.2.2⟩

/-- Claim C10: a `register_user` request with a pubkey the ledger SDK cannot
decode fails with the invalid-field error when debug mode is off (no user row
is created — the handler commits nothing on error); with debug mode on, a
fresh keypair is generated, its secret seed is stored in the row, and the
generated pubkey is registered in place of the supplied one. -/
theorem claim_C10 (debug pubkey_valid : Bool)
    (gen_pubkey gen_seed user_pubkey paket_user : String) (db : UserDB) :
    (pubkey_valid = false → debug = false →
      register_user_handler debug pubkey_valid gen_pubkey gen_seed user_pubkey
        paket_user db =
        Except.error (RegisterError.invalidField ("invalid pubkey " ++ user_pubkey))) ∧
    (pubkey_valid = false → debug = false → ∀ (db' : UserDB) (reg : String),
      register_user_handler debug pubkey_valid gen_pubkey gen_seed user_pubkey
        paket_user db ≠ Except.ok (db', reg)) ∧
    (pubkey_valid = false → debug = true →
      register_user_handler debug pubkey_valid gen_pubkey gen_seed user_pubkey
        paket_user db =
        Except.ok (⟨db.users ++ [⟨gen_pubkey, paket_user, some gen_seed⟩]⟩, gen_pubkey)) := by
  refine ⟨?_, ?_, ?_⟩
  · intro hv hd
    subst hv
    subst hd
    rfl
  · intro hv hd db' reg
    subst hv
    subst hd
    intro hc
    exact Except.noConfusion hc
  · intro hv hd
    subst hv
    subst hd
    rfl

/-- Witness for C10: registering the undecodable pubkey `badkey` fails outside
debug mode and, in debug mode, stores the generated keypair `GPUB`/`SEED`. -/
theorem claim_C10_witness :
    register_user_handler false false "GPUB" "SEED" "badkey" "alice" ⟨[]⟩ =
      Except.error (RegisterError.invalidField ("invalid pubkey " ++ "badkey")) ∧
    register_user_handler true false "GPUB" "SEED" "badkey" "alice" ⟨[]⟩ =
      Except.ok (⟨[⟨"GPUB", "alice", some "SEED"⟩]⟩, "GPUB") :=
  ⟨(claim_C10 false false "GPUB" "SEED" "badkey" "alice" ⟨[]⟩).1 rfl rfl,
   (claim_C10 true false "GPUB" "SEED" "badkey" "alice" ⟨[]⟩).2.2 rfl rfl⟩

/-- Claim C1 counterexample: in `dbC1` the recipient is `R` and the courier is
`C`, yet `accept_package` called by the unrelated identity `X` is NOT rejected:
it succeeds and appends a `couriered` event.  The handler performs no
authorization check at all. -/
theorem claim_C1_counterexample :
    accept_package_handler dbC1 "t1" "X" "E" none =
      Except.ok { dbC1 with
        events := dbC1.events ++ [⟨"t1", some "E", "X", "couriered", none⟩] } ∧
    ("X" : String) ≠ "R" ∧ ("X" : String) ≠ "C" ∧ ("X" : String) ≠ "L" := by
  refine ⟨rfl, ?_, ?_, ?_⟩ <;> decide

/-- Claim C1 (amended): for every `accept_package` call on a launched,
non-terminal package, if the caller is the recorded recipient a `received`
event is appended and if it is the current courier a `couriered` event is
appended — but every other identity is NOT rejected with an authorization
error: the call succeeds and appends a `couriered` event exactly as for the
courier, since the handler performs no authorization check. -/
theorem claim_C1_amended (db : DB) (now user escrow : String) (loc : Option String)
    (pkg : Package) (hg : get_package db escrow = Except.ok pkg)
    (hl : hasLaunched db escrow = true) (ht : hasTerminal db escrow = false) :
    accept_package_handler db now user escrow loc =
      Except.ok { db with events := db.events ++
        [⟨now, some escrow, user,
          (if pkg.recipient_pubkey = user then "received" else "couriered"), loc⟩] } := by
  have hstep : accept_package_handler db now user escrow loc =
      add_event db now escrow user
        (if pkg.recipient_pubkey = user then "received" else "couriered") loc := by
    rw [accept_package_handler, hg]
    rfl
  rw [hstep, add_event]
  rw [if_neg (by rw [hl]; exact fun hc => Bool.noConfusion hc)]
  rw [if_neg (by rw [ht]; exact fun hc => Bool.noConfusion hc)]

/-- Witness for C1 (amended) at `dbC1`: the recipient `R` gets a `received`
event appended. -/
theorem claim_C1_witness :
    accept_package_handler dbC1 "t1" "R" "E" none =
      Except.ok { dbC1 with
        events := dbC1.events ++ [⟨"t1", some "E", "R", "received", none⟩] } :=
  claim_C1_amended dbC1 "t1" "R" "E" none ⟨"E", "L", "R", "C", 5, 10, 100, none⟩
    rfl rfl rfl

/-- Claim C6 counterexample: the event `changed_location_handler` appends has
event type `"changed location"` (with a space), not the spelling
`"changed_location"` the claim states. -/
theorem claim_C6_counterexample :
    changed_location_handler dbC6 "t1" "C" "F" "1.0,2.0" =
      Except.ok { dbC6 with events := dbC6.events ++
        [⟨"t1", some "F", "C", "changed location", some "1.0,2.0"⟩] } ∧
    ("changed location" : String) ≠ "changed_location" := by
  refine ⟨rfl, ?_⟩
  decide

/-- Claim C6 (amended): on a launched, non-terminal package,
`changed_location_handler` appends exactly one event, of the non-terminal type
`"changed location"`, leaving the Package rows (and hence the recorded courier
and every row field) unchanged. -/
theorem claim_C6_amended (db : DB) (now user escrow location : String)
    (hl : hasLaunched db escrow = true) (ht : hasTerminal db escrow = false) :
    changed_location_handler db now user escrow location =
      Except.ok { db with events := db.events ++
        [⟨now, some escrow, user, "changed location", some location⟩] } ∧
    isTerminal "changed location" = false := by
  constructor
  · rw [changed_location_handler, add_event]
    rw [if_neg (by rw [hl]; exact fun hc => Bool.noConfusion hc)]
    rw [if_neg (by rw [ht]; exact fun hc => Bool.noConfusion hc)]
  · decide

/-- Witness for C6 (amended) at `dbC6`. -/
theorem claim_C6_witness :
    changed_location_handler dbC6 "t1" "L" "F" "3.0,4.0" =
      Except.ok { dbC6 with events := dbC6.events ++
        [⟨"t1", some "F", "L", "changed location", some "3.0,4.0"⟩] } ∧
    isTerminal "changed location" = false :=
  claim_C6_amended dbC6 "t1" "L" "F" "3.0,4.0" rfl rfl

theorem lookupNonce_map_update (nonces : List (String × Nat)) (identity : String)
    (nonce : Nat) {last : Nat} (h : lookupNonce nonces identity = some last) :
    lookupNonce (nonces.map (fun r => if r.1 = identity then (r.1, nonce) else r))
      identity = some nonce := by
  induction nonces with
  | nil => simp [lookupNonce] at h
  | cons a t ih =>
    by_cases ha : a.1 = identity
    · rw [List.map_cons, if_pos ha]
      rw [lookupNonce, List.find?_cons_of_pos _ (by simp [ha])]
      simp
    · rw [List.map_cons, if_neg ha]
      rw [lookupNonce, List.find?_cons_of_neg _ (by simp [ha])]
      rw [lookupNonce] at ih
      apply ih
      rw [lookupNonce] at h
      rwa [List.find?_cons_of_neg _ (by simp [ha])] at h

/-- Claim C3: an authenticated request from an identity holding a Nonce Record
with value `last` is rejected with the replay error whenever its nonce is
≤ `last`, committing nothing (in particular a replayed launch creates no
Package row); a nonce strictly greater than `last` passes the check and
updates the record to that nonce, touching neither packages nor events; an
identity with no Nonce Record gets any nonce (all nonces are ≥ 0) accepted and
the record created. -/
theorem claim_C3 (db : DB) (identity : String) (nonce last : Nat)
    (handler : DB → Except DBError DB)
    (now launcher courier recipient : String) (payment collateral deadline : Nat)
    (loc : Option String) :
    (lookupNonce db.nonces identity = some last → nonce ≤ last →
      check_and_update_nonce db identity nonce = Except.error DBError.replay ∧
      authenticated_call db identity nonce handler = Except.error DBError.replay ∧
      commitAuth db identity nonce
        (fun d => prepare_escrow_handler d now identity launcher courier recipient
          payment collateral deadline loc) = db) ∧
    (lookupNonce db.nonces identity = some last → last < nonce →
      check_and_update_nonce db identity nonce = Except.ok { db with
        nonces := db.nonces.map (fun r => if r.1 = identity then (r.1, nonce) else r) } ∧
      lookupNonce (db.nonces.map (fun r => if r.1 = identity then (r.1, nonce) else r))
        identity = some nonce ∧
      (∀ db2, check_and_update_nonce db identity nonce = Except.ok db2 →
        db2.packages = db.packages ∧ db2.events = db.events)) ∧
    (lookupNonce db.nonces identity = none →
      check_and_update_nonce db identity nonce =
        Except.ok { db with nonces := db.nonces ++ [(identity, nonce)] } ∧
      lookupNonce (db.nonces ++ [(identity, nonce)]) identity = some nonce) := by
  refine ⟨?_, ?_, ?_⟩
  · intro hlk hle
    have hchk : check_and_update_nonce db identity nonce =
        Except.error DBError.replay := by
      rw [check_and_update_nonce, hlk]
      exact if_neg (Nat.not_lt.mpr hle)
    refine ⟨hchk, ?_, ?_⟩
    · rw [authenticated_call, hchk]
      rfl
    · rw [commitAuth, authenticated_call, hchk]
      rfl
  · intro hlk hlt
    have hchk : check_and_update_nonce db identity nonce = Except.ok { db with
        nonces := db.nonces.map (fun r => if r.1 = identity then (r.1, nonce) else r) } := by
      rw [check_and_update_nonce, hlk]
      exact if_pos hlt
    refine ⟨hchk, lookupNonce_map_update db.nonces identity nonce hlk, ?_⟩
    intro db2 h2
    rw [hchk] at h2
    have hdb2 : ({ db with
        nonces := db.nonces.map (fun r => if r.1 = identity then (r.1, nonce) else r) } :
        DB) = db2 := Except.ok.injEq _ _ ▸ h2
    rw [← hdb2]
    exact ⟨rfl, rfl⟩
  · intro hlk
    constructor
    · rw [check_and_update_nonce, hlk]
    · have hfnone : db.nonces.find? (fun r => decide (r.1 = identity)) = none := by
        rw [lookupNonce] at hlk
        exact Option.map_eq_none'.mp hlk
      rw [lookupNonce, find?_append_none _ hfnone]
      rw [List.find?_cons_of_pos _ (by simp)]
      rfl

/-- Witness for C3 at a store whose identity `L` has `last_nonce = 5`: nonce 5
is replayed (a launch with it commits nothing), nonce 6 is accepted and
recorded, and the fresh identity `M` gets its record created with nonce 0. -/
theorem claim_C3_witness :
    (check_and_update_nonce ⟨[], [], [("L", 5)]⟩ "L" 5 =
      Except.error DBError.replay ∧
     commitAuth ⟨[], [], [("L", 5)]⟩ "L" 5
       (fun d => prepare_escrow_handler d "t0" "L" "L" "C" "R" 5 10 100 none) =
       ⟨[], [], [("L", 5)]⟩) ∧
    (check_and_update_nonce ⟨[], [], [("L", 5)]⟩ "L" 6 =
      Except.ok ⟨[], [], [("L", 6)]⟩ ∧
     lookupNonce [("L", 6)] "L" = some 6) ∧
    (check_and_update_nonce ⟨[], [], [("L", 5)]⟩ "M" 0 =
      Except.ok ⟨[], [], [("L", 5), ("M", 0)]⟩ ∧
     lookupNonce [("L", 5), ("M", 0)] "M" = some 0) := by
  have h1 := (claim_C3 ⟨[], [], [("L", 5)]⟩ "L" 5 5 Except.ok
    "t0" "L" "C" "R" 5 10 100 none).1 (by decide) (by decide)
  have h2 := (claim_C3 ⟨[], [], [("L", 5)]⟩ "L" 6 5 Except.ok
    "t0" "L" "C" "R" 5 10 100 none).2.1 (by decide) (by decide)
  have h3 := (claim_C3 ⟨[], [], [("L", 5)]⟩ "M" 0 5 Except.ok
    "t0" "L" "C" "R" 5 10 100 none).2.2 (by decide)
  exact ⟨⟨h1.1, h1.2.2⟩, ⟨h2.1, h2.2.1⟩, h3⟩

/-- Claim C2: in every store reachable by the package operations, no event for
an escrow follows a terminal event (`events_after_terminal` is always zero),
and once a terminal event exists every further append attempt — through
`add_event` itself, the deprecated `add_event` route, the `changed_location`
route or `accept_package` — fails with the terminal-state error and commits
nothing, leaving the store unchanged. -/
theorem claim_C2 (ops : List Op) (escrow now user etype location : String)
    (loc : Option String) :
    eventsAfterTerminal (eventsFor (run ops) escrow) = 0 ∧
    (hasTerminal (run ops) escrow = true →
      add_event (run ops) now escrow user etype loc =
        Except.error DBError.terminalState ∧
      add_event_handler (run ops) now user escrow etype location =
        Except.error DBError.terminalState ∧
      changed_location_handler (run ops) now user escrow location =
        Except.error DBError.terminalState ∧
      accept_package_handler (run ops) now user escrow loc =
        Except.error DBError.terminalState ∧
      step (run ops) (Op.addEvent now user escrow etype location) = run ops ∧
      step (run ops) (Op.changedLocation now user escrow location) = run ops ∧
      step (run ops) (Op.acceptPackage now user escrow loc) = run ops) := by
  have hInv := run_inv ops
  refine ⟨(escrowInv_spec (hInv escrow)).2, ?_⟩
  intro ht
  obtain ⟨hl, p, hfp⟩ := launched_of_terminal hInv ht
  have hae := add_event_terminal hl ht
  have hget : get_package (run ops) escrow = Except.ok p := by
    rw [get_package, hfp]
  have haeh : add_event_handler (run ops) now user escrow etype location =
      Except.error DBError.terminalState := by
    rw [add_event_handler]
    exact hae now user etype (some location)
  have hcl : changed_location_handler (run ops) now user escrow location =
      Except.error DBError.terminalState := by
    rw [changed_location_handler]
    exact hae now user "changed location" (some location)
  have hacc : accept_package_handler (run ops) now user escrow loc =
      Except.error DBError.terminalState := by
    rw [accept_package_handler, hget]
    show add_event (run ops) now escrow user
      (if p.recipient_pubkey = user then "received" else "couriered") loc = _
    exact hae now user _ loc
  refine ⟨hae now user etype loc, haeh, hcl, hacc, ?_, ?_, ?_⟩
  · show (match add_event_handler (run ops) now user escrow etype location with
      | Except.ok db' => db'
      | Except.error _ => run ops) = run ops
    rw [haeh]
  · show (match changed_location_handler (run ops) now user escrow location with
      | Except.ok db' => db'
      | Except.error _ => run ops) = run ops
    rw [hcl]
  · show (match accept_package_handler (run ops) now user escrow loc with
      | Except.ok db' => db'
      | Except.error _ => run ops) = run ops
    rw [hacc]

/-- Witness for C2: launching escrow `E` and having recipient `R` accept it
produces a terminal `received` event, after which a further append attempt
fails with the terminal-state error. -/
theorem claim_C2_witness :
    eventsAfterTerminal (eventsFor
      (run [Op.prepareEscrow "t0" "E" "L" "C" "R" 5 10 100 none,
            Op.acceptPackage "t1" "R" "E" none]) "E") = 0 ∧
    add_event (run [Op.prepareEscrow "t0" "E" "L" "C" "R" 5 10 100 none,
                    Op.acceptPackage "t1" "R" "E" none])
      "t2" "E" "X" "couriered" none = Except.error DBError.terminalState := by
  refine ⟨(claim_C2 [Op.prepareEscrow "t0" "E" "L" "C" "R" 5 10 100 none,
    Op.acceptPackage "t1" "R" "E" none] "E" "t2" "X" "couriered" "9,9" none).1, ?_⟩
  exact ((claim_C2 [Op.prepareEscrow "t0" "E" "L" "C" "R" 5 10 100 none,
    Op.acceptPackage "t1" "R" "E" none] "E" "t2" "X" "couriered" "9,9" none).2
    (by decide)).1

/-- Claim C5: in every reachable store the first event of any escrow is a
`launched` event attributed to the launcher recorded in the (existing) Package
row; a successful `create_package` adds exactly one Package row and exactly one
`launched` event; and appending for an escrow with no prior `launched` event
fails with the not-found error. -/
theorem claim_C5 (ops : List Op) (escrow : String) (e : Event) (t : List Event)
    (db db' : DB) (now user etype : String) (loc : Option String) (p : Package) :
    (eventsFor (run ops) escrow = e :: t →
      e.event_type = "launched" ∧
      ∃ q, (run ops).packages.find? (fun q => decide (q.escrow_pubkey = escrow)) =
        some q ∧ e.user_pubkey = q.launcher_pubkey) ∧
    (create_package db now p = Except.ok db' →
      db'.packages = db.packages ++ [p] ∧
      db'.events = db.events ++
        [⟨now, some p.escrow_pubkey, p.launcher_pubkey, "launched", p.location⟩]) ∧
    (hasLaunched db escrow = false →
      add_event db now escrow user etype loc = Except.error DBError.unknownPaket) := by
  refine ⟨?_, ?_, ?_⟩
  · intro het
    have hfo := (escrowInv_spec (run_inv ops escrow)).1
    rw [het] at hfo
    exact firstOk_cons hfo
  · intro h
    rw [create_package] at h
    by_cases hp : hasPackage db p.escrow_pubkey = true
    · rw [if_pos hp] at h
      exact Except.noConfusion h
    · rw [if_neg hp] at h
      have hdb' : db' = { db with
          packages := db.packages ++ [p],
          events := db.events ++
            [⟨now, some p.escrow_pubkey, p.launcher_pubkey, "launched", p.location⟩] } :=
        (Except.ok.injEq _ _ ▸ h).symm
      rw [hdb']
      exact ⟨rfl, rfl⟩
  · intro hl
    rw [add_event, if_pos hl]

/-- Witness for C5: after launching escrow `E` from the empty store, the first
(and only) event for `E` is `launched` and attributed to launcher `L`; a
create into the empty store adds exactly the row and its `launched` event; and
appending for the unknown escrow `Z` fails with the not-found error. -/
theorem claim_C5_witness :
    ((⟨"t0", some "E", "L", "launched", none⟩ : Event).event_type = "launched" ∧
      ∃ q, (run [Op.prepareEscrow "t0" "E" "L" "C" "R" 5 10 100 none]).packages.find?
        (fun q => decide (q.escrow_pubkey = "E")) = some q ∧
        (⟨"t0", some "E", "L", "launched", none⟩ : Event).user_pubkey =
          q.launcher_pubkey) ∧
    add_event initDB "t0" "Z" "U" "couriered" none =
      Except.error DBError.unknownPaket := by
  refine ⟨(claim_C5 [Op.prepareEscrow "t0" "E" "L" "C" "R" 5 10 100 none] "E"
    ⟨"t0", some "E", "L", "launched", none⟩ [] initDB initDB "t0" "U" "couriered"
    none ⟨"E", "L", "R", "C", 5, 10, 100, none⟩).1 ?hyp, ?rest⟩
  case hyp => decide
  case rest =>
    exact (claim_C5 [Op.prepareEscrow "t0" "E" "L" "C" "R" 5 10 100 none] "Z"
      ⟨"t0", some "E", "L", "launched", none⟩ [] initDB initDB "t0" "U" "couriered"
      none ⟨"E", "L", "R", "C", 5, 10, 100, none⟩).2.2 (by decide)

end Paket
